import Mathlib

/- Shallow embedding of the access-control subsystem in
   src/hs_access_control/models.py.

   Conventions used throughout:
   * Privilege levels are the numeric codes of class PrivilegeCodes
     (models.py:132-158): 1 = OWNER, 2 = CHANGE, 3 = VIEW, 4 = NONE; a lower
     number is a stronger privilege.
   * Each Django privilege model (UserGroupPrivilege, UserResourcePrivilege,
     GroupResourcePrivilege) is embedded as a list of records.  The
     transitional pairs of foreign keys in the source (user and usernew,
     grantor and grantornew, and so on) name the same logical principal and
     are collapsed into a single field of the record.
   * Users and the flag state of groups and resources are total maps from ids.
   * QuerySet.get is modelled by matching on the filtered list (zero, one, or
     several matches), get_or_create by List.find?, aggregate(Min) by
     aggregateMinPriv, and filter(...).exists() by List.any.
   * Action methods that can raise are functions into Except Err World.
     Err.permissionDenied carries the message of the PermissionDenied raise;
     the other constructors stand for the Django DoesNotExist,
     MultipleObjectsReturned and FieldError exceptions.
   * A Django filter keyword compared against None (grantornew=None when the
     optional this_grantor argument was omitted) matches no stored record,
     since the grantor columns are never null; this is modelled by a grantor
     test that is false when the optional argument is Option.none.
-/

namespace HSAccess

abbrev UserId := Nat
abbrev GroupId := Nat
abbrev ResId := Nat

namespace PrivilegeCodes

/-- models.py:149 -/
abbrev OWNER : Nat := 1

/-- models.py:150 -/
abbrev CHANGE : Nat := 2

/-- models.py:151 -/
abbrev VIEW : Nat := 3

/-- models.py:152 -/
abbrev NONE : Nat := 4

end PrivilegeCodes

/-- The identity-provider view of a user: models.py:66 interface
(id, is_active, is_superuser). -/
structure UserRec where
  is_active : Bool
  is_superuser : Bool
  deriving DecidableEq

/-- Flag state of a GroupAccess row (models.py:2145-2159). -/
structure GroupFlags where
  active : Bool
  discoverable : Bool
  public : Bool
  shareable : Bool
  deriving DecidableEq

/-- Flag state of a ResourceAccess row (models.py:2301-2308). -/
structure ResourceFlags where
  active : Bool
  discoverable : Bool
  public : Bool
  shareable : Bool
  published : Bool
  immutable : Bool
  deriving DecidableEq

/-- One UserGroupPrivilege record (models.py:176-221), unique per
(user, group, grantor). -/
structure UGP where
  user : UserId
  group : GroupId
  grantor : UserId
  privilege : Nat
  deriving DecidableEq

/-- One UserResourcePrivilege record (models.py:228-274), unique per
(user, resource, grantor). -/
structure URP where
  user : UserId
  resource : ResId
  grantor : UserId
  privilege : Nat
  deriving DecidableEq

/-- One GroupResourcePrivilege record (models.py:281-327), unique per
(group, resource, grantor). -/
structure GRP where
  group : GroupId
  resource : ResId
  grantor : UserId
  privilege : Nat
  deriving DecidableEq

/-- The grant store and flag store: the mutable state the access-control
methods read and write. -/
structure World where
  users : UserId → UserRec
  groupFlags : GroupId → GroupFlags
  resFlags : ResId → ResourceFlags
  ugp : List UGP
  urp : List URP
  grp : List GRP

/-- Exception outcomes of the action methods. -/
inductive Err where
  | permissionDenied (msg : String)
  | doesNotExist
  | multipleObjects
  | fieldError
  deriving DecidableEq

/-- aggregate(Min) over a list of privilege values: none when the list is
empty, otherwise the least element. -/
def minPrivAux : List Nat → Option Nat
  | [] => none
  | p :: rest =>
    match minPrivAux rest with
    | none => some p
    | some m => some (min p m)

/-- The aggregate(Min)-then-default-to-NONE idiom of
ResourceAccess.get_combined_privilege (models.py:2487-2489, 2501-2503). -/
def aggregateMinPriv (l : List Nat) : Nat :=
  match minPrivAux l with
  | none => PrivilegeCodes.NONE
  | some m => m

/-- UserAccess.owns_group (models.py:492-521): false when the group is not
active, otherwise true exactly when an OWNER record for this user exists. -/
def owns_group (w : World) (self : UserId) (g : GroupId) : Bool :=
  if !(w.groupFlags g).active then false
  else w.ugp.any (fun r => r.group == g && r.privilege == PrivilegeCodes.OWNER && r.user == self)

/-- UserAccess.owns_resource (models.py:1270-1290): true exactly when an
OWNER record for this user exists; the active flag of the resource is not
consulted. -/
def owns_resource (w : World) (self : UserId) (res : ResId) : Bool :=
  w.urp.any (fun p => p.resource == res && p.privilege == PrivilegeCodes.OWNER && p.user == self)

/-- GroupAccess.get_number_of_owners (models.py:2211-2231): the count of
distinct users holding an OWNER record over the group. -/
def get_number_of_group_owners (w : World) (g : GroupId) : Nat :=
  (((w.ugp.filter (fun r => r.group == g && r.privilege == PrivilegeCodes.OWNER)).map UGP.user).dedup).length

/-- ResourceAccess.get_number_of_owners (models.py:2363-2383): the count of
OWNER records over the resource (the source applies no distinct here). -/
def get_number_of_resource_owners (w : World) (res : ResId) : Nat :=
  (w.urp.filter (fun p => p.resource == res && p.privilege == PrivilegeCodes.OWNER)).length

/-- The direct part of ResourceAccess.get_combined_privilege
(models.py:2479-2489): privileges of records for this user over this
resource, filtered to active users. -/
def direct_resource_privileges (w : World) (res : ResId) (u : UserId) : List Nat :=
  (w.urp.filter (fun p => p.user == u && (w.users p.user).is_active && p.resource == res)).map URP.privilege

/-- The group-mediated part of ResourceAccess.get_combined_privilege
(models.py:2492-2503): privileges of group grants over this resource,
filtered to active groups having this user as an active member. -/
def group_mediated_privileges (w : World) (res : ResId) (u : UserId) : List Nat :=
  (w.grp.filter (fun p => p.resource == res && (w.groupFlags p.group).active &&
      w.ugp.any (fun m => m.group == p.group && m.user == u && (w.users m.user).is_active))).map GRP.privilege

/-- ResourceAccess.get_combined_privilege (models.py:2459-2505). -/
def get_combined_privilege (w : World) (res : ResId) (u : UserId) : Nat :=
  if (w.users u).is_superuser then PrivilegeCodes.OWNER
  else min (aggregateMinPriv (direct_resource_privileges w res u))
           (aggregateMinPriv (group_mediated_privileges w res u))

/-- The immutable-flag override of ResourceAccess.get_effective_privilege
(models.py:2559-2560): privilege is at most VIEW. -/
def immutableAdjust (p : Nat) : Nat := max p PrivilegeCodes.VIEW

/-- The public-flag override of ResourceAccess.get_effective_privilege
(models.py:2561-2562): privilege is at least VIEW. -/
def publicAdjust (p : Nat) : Nat := min p PrivilegeCodes.VIEW

/-- ResourceAccess.get_effective_privilege (models.py:2533-2563). -/
def get_effective_privilege (w : World) (res : ResId) (u : UserId) : Nat :=
  let user_priv := get_combined_privilege w res u
  let user_priv := if (w.resFlags res).immutable then immutableAdjust user_priv else user_priv
  let user_priv := if (w.resFlags res).public then publicAdjust user_priv else user_priv
  user_priv

/-- UserAccess.can_share_resource (models.py:1400-1447); whom_priv of the
source is get_combined_privilege w res self. -/
def can_share_resource (w : World) (self : UserId) (res : ResId) (priv : Nat) : Bool :=
  if !(w.users self).is_active then false
  else if !((w.users self).is_superuser
      || get_combined_privilege w res self == PrivilegeCodes.OWNER
      || (w.resFlags res).shareable) then false
  else if decide (get_combined_privilege w res self > PrivilegeCodes.VIEW) then false
  else if decide (get_combined_privilege w res self > priv) then false
  else true

/-- The non-owner-downgrade guard inside UserAccess.share_resource_with_user
(models.py:1620-1630): a non-owner lowering the current privilege of the
grantee must be the grantor of the record holding that privilege.  The
QuerySet.get there keys on (resource, user, privilege), which is not a
unique key, hence the DoesNotExist and MultipleObjectsReturned outcomes. -/
def downgrade_guard (w : World) (self : UserId) (res : ResId) (tu : UserId)
    (priv grantee whom : Nat) : Except Err Unit :=
  if whom != PrivilegeCodes.OWNER && decide (grantee < priv) then
    match w.urp.filter (fun p => p.resource == res && p.user == tu && p.privilege == grantee) with
    | [] => .error .doesNotExist
    | [rec] =>
      if rec.grantor != self then .error (.permissionDenied ("User has insufficient privilege over resource"))
      else .ok ()
    | _ :: _ :: _ => .error .multipleObjects
  else .ok ()

/-- The owner-override cleanup of UserAccess.share_resource_with_user
(models.py:1648-1655): when the sharer is active and is a superuser or owns
the resource, delete every record of the same user over the same resource
whose privilege value is numerically below the granted one. -/
def resource_owner_override (w : World) (self : UserId) (res : ResId) (tu : UserId) (priv : Nat) :
    World :=
  if (w.users self).is_active && ((w.users self).is_superuser || owns_resource w self res) then
    { w with urp := w.urp.filter (fun p =>
        !(p.resource == res && p.user == tu && decide (p.privilege < priv))) }
  else w

/-- The mutating tail of UserAccess.share_resource_with_user
(models.py:1632-1655): get_or_create on (resource, user, grantor), the
sole-owner demotion guard over the fetched or created record, the in-place
privilege update, then the owner-override cleanup. -/
def share_resource_apply (w : World) (self : UserId) (res : ResId) (tu : UserId) (priv : Nat) :
    Except Err World :=
  match w.urp.find? (fun p => p.resource == res && p.user == tu && p.grantor == self) with
  | some rec =>
    if rec.privilege == PrivilegeCodes.OWNER && priv != PrivilegeCodes.OWNER
        && get_number_of_resource_owners w res == 1 then
      .error (.permissionDenied ("Cannot remove last owner of resource"))
    else
      .ok (resource_owner_override { w with urp := w.urp.map (fun p =>
        if p.resource == res && p.user == tu && p.grantor == self then
          { p with privilege := priv } else p) } self res tu priv)
  | none =>
    if priv == PrivilegeCodes.OWNER && priv != PrivilegeCodes.OWNER
        && get_number_of_resource_owners w res == 1 then
      .error (.permissionDenied ("Cannot remove last owner of resource"))
    else
      .ok (resource_owner_override
        { w with urp := { user := tu, resource := res, grantor := self, privilege := priv } :: w.urp }
        self res tu priv)

/-- UserAccess.share_resource_with_user (models.py:1567-1655); whom_priv and
grantee_priv of the source are the two get_combined_privilege calls. -/
def share_resource_with_user (w : World) (self : UserId) (res : ResId) (tu : UserId) (priv : Nat) :
    Except Err World :=
  if !(w.users self).is_active then .error (.permissionDenied ("Requester is not an active user"))
  else if !(w.users tu).is_active then .error (.permissionDenied ("Grantee is not an active user"))
  else if !((w.users self).is_superuser
      || get_combined_privilege w res self == PrivilegeCodes.OWNER
      || (w.resFlags res).shareable) then
    .error (.permissionDenied ("User must own resource or have sharing privilege"))
  else if decide (get_combined_privilege w res self > PrivilegeCodes.VIEW) then
    .error (.permissionDenied ("User has no privilege over resource"))
  else if decide (get_combined_privilege w res self > priv) then
    .error (.permissionDenied ("User has insufficient privilege over resource"))
  else
    match downgrade_guard w self res tu priv (get_combined_privilege w res tu)
        (get_combined_privilege w res self) with
    | .error e => .error e
    | .ok _ => share_resource_apply w self res tu priv

/-- The owner-override cleanup of UserAccess.share_group_with_user
(models.py:813-821): when the sharer owns the group or is a superuser,
delete every record of the same user over the same group whose privilege
value is numerically below the granted one. -/
def group_owner_override (w : World) (self : UserId) (g : GroupId) (tu : UserId) (priv : Nat) :
    World :=
  if owns_group w self g || (w.users self).is_superuser then
    { w with ugp := w.ugp.filter (fun r =>
        !(r.group == g && r.user == tu && decide (r.privilege < priv))) }
  else w

/-- UserAccess.share_group_with_user (models.py:743-821).  The sole-owner
demotion guard of models.py:804-811 runs only when the record already
existed. -/
def share_group_with_user (w : World) (self : UserId) (g : GroupId) (tu : UserId) (priv : Nat) :
    Except Err World :=
  if !(w.users self).is_active then .error (.permissionDenied ("User is not active"))
  else if !(owns_group w self g) && !(w.groupFlags g).shareable && !(w.users self).is_superuser then
    .error (.permissionDenied ("User is not group owner and group is not shareable"))
  else if !(w.users self).is_superuser
      && !(w.ugp.any (fun r => r.group == g && r.user == self && decide (r.privilege ≤ priv))) then
    .error (.permissionDenied ("User has insufficient privilege over group"))
  else
    match w.ugp.find? (fun r => r.group == g && r.user == tu && r.grantor == self) with
    | some rec =>
      if rec.privilege == PrivilegeCodes.OWNER && priv != PrivilegeCodes.OWNER
          && get_number_of_group_owners w g == 1 then
        .error (.permissionDenied ("Cannot remove last owner of group"))
      else
        .ok (group_owner_override { w with ugp := w.ugp.map (fun r =>
          if r.group == g && r.user == tu && r.grantor == self then
            { r with privilege := priv } else r) } self g tu priv)
    | none =>
      .ok (group_owner_override
        { w with ugp := { user := tu, group := g, grantor := self, privilege := priv } :: w.ugp }
        self g tu priv)

/-- Whether a stored grantor column matches the optional this_grantor
argument: a comparison against None (the omitted argument) matches no
record, since grantor columns are never null. -/
def grantorMatches (grOpt : Option UserId) (gr : UserId) : Bool :=
  match grOpt with
  | some g => gr == g
  | none => false

/-- The body of UserAccess.__handle_undo_share_group_with_user after its
optional-grantor pre-checks (models.py:961-999), in DO mode.  The record is
fetched by grantornew=self.user, but the existence exclusion and the delete
filter use this_grantor, which is None when the argument was omitted. -/
def undo_share_group_core (w : World) (self : UserId) (g : GroupId) (tu : UserId)
    (grOpt : Option UserId) : Except Err World :=
  if !(w.users self).is_active then .error (.permissionDenied ("Grantor is not active"))
  else if !(w.ugp.any (fun r => r.group == g && r.user == tu)) then
    .error (.permissionDenied ("User is not a member of the group"))
  else
    match w.ugp.find? (fun r => r.group == g && r.user == tu && r.grantor == self) with
    | none => .error (.permissionDenied ("No share to undo"))
    | some existing =>
      if existing.privilege != PrivilegeCodes.OWNER
          || w.ugp.any (fun r => r.group == g && r.privilege == PrivilegeCodes.OWNER
              && !(r.user == tu && grantorMatches grOpt r.grantor)) then
        .ok { w with ugp := w.ugp.filter (fun r =>
          !(r.group == g && r.user == tu && grantorMatches grOpt r.grantor)) }
      else .error (.permissionDenied ("Cannot remove sole owner of group"))

/-- UserAccess.undo_share_group_with_user (models.py:936-1028), the DO mode
of __handle_undo_share_group_with_user including the optional-grantor
pre-checks of models.py:946-959. -/
def undo_share_group_with_user (w : World) (self : UserId) (g : GroupId) (tu : UserId)
    (grOpt : Option UserId) : Except Err World :=
  match grOpt with
  | some gr =>
    if !(w.ugp.any (fun r => r.group == g && r.user == tu && r.grantor == gr)) then
      .error (.permissionDenied ("Grantor did not grant privilege"))
    else if !(owns_group w self g) && !(w.users self).is_superuser then
      .error (.permissionDenied ("Self must be owner or admin"))
    else undo_share_group_core w self g tu grOpt
  | none => undo_share_group_core w self g tu grOpt

/-- UserAccess.undo_share_resource_with_user (models.py:1750-1822), the DO
mode of __handle_undo_share_resource_with_user.  When this_grantor is given
explicitly, the pre-check at models.py:1772 filters GroupResourcePrivilege
on a usernew field that the model does not define, which raises a Django
FieldError; when it is omitted, the grantor defaults to the caller and the
fetch, the sole-owner guard and the delete all key on that grantor. -/
def undo_share_resource_with_user (w : World) (self : UserId) (res : ResId) (tu : UserId)
    (grOpt : Option UserId) : Except Err World :=
  match grOpt with
  | some _ => .error .fieldError
  | none =>
    match w.urp.find? (fun p => p.resource == res && p.user == tu && p.grantor == self) with
    | none => .error (.permissionDenied ("No share to undo"))
    | some existing =>
      if existing.privilege != PrivilegeCodes.OWNER
          || w.urp.any (fun p => p.resource == res && p.privilege == PrivilegeCodes.OWNER
              && !(p.resource == res && p.user == tu)) then
        .ok { w with urp := w.urp.filter (fun p =>
          !(p.resource == res && p.user == tu && p.grantor == self)) }
      else .error (.permissionDenied ("Cannot remove sole resource owner"))

/-- UserAccess.can_change_group (models.py:523-554). -/
def can_change_group (w : World) (self : UserId) (g : GroupId) : Bool :=
  if !(w.users self).is_active || !(w.groupFlags g).active then false
  else if (w.users self).is_superuser then true
  else w.ugp.any (fun r => r.group == g && decide (r.privilege ≤ PrivilegeCodes.CHANGE) && r.user == self)

/-- UserAccess.can_delete_group (models.py:659-687): unlike the other
predicates, it raises PermissionDenied when the requesting user is not
active, so it is embedded with an Except result. -/
def can_delete_group (w : World) (self : UserId) (g : GroupId) : Except Err Bool :=
  if !(w.users self).is_active then .error (.permissionDenied ("Requesting user is not active"))
  else .ok ((w.users self).is_superuser || owns_group w self g)

/-- The membership test at models.py:2051 compares self, a UserAccess row,
against a QuerySet of User rows; Django model equality across distinct
concrete models is always false, so the test never succeeds. -/
def useraccess_in_user_queryset : Bool := false

/-- UserAccess.get_resource_unshare_users (models.py:2020-2054): raises for
an inactive requesting user, otherwise enumerates removable users. -/
def get_resource_unshare_users (w : World) (self : UserId) (res : ResId) :
    Except Err (List UserId) :=
  if !(w.users self).is_active then .error (.permissionDenied ("Requesting user is not active"))
  else if (w.users self).is_superuser || owns_resource w self res then
    if get_number_of_resource_owners w res == 1 then
      .ok (((w.urp.filter (fun p => p.resource == res)).map URP.user).filter
        (fun u => !(w.urp.any (fun p => p.resource == res && p.privilege == PrivilegeCodes.OWNER && p.user == u))))
    else .ok ((w.urp.filter (fun p => p.resource == res)).map URP.user)
  else if useraccess_in_user_queryset then .ok [self]
  else .ok []

/-- Group flags with every flag at its model default (models.py:2145-2159). -/
def defaultGroupFlags : GroupFlags :=
  { active := true, discoverable := true, public := true, shareable := true }

/-- Resource flags with every flag at its model default (models.py:2301-2308). -/
def defaultResourceFlags : ResourceFlags :=
  { active := true, discoverable := false, public := false, shareable := true,
    published := false, immutable := false }

/-- A store holding group 5 in its creation bootstrap state: user 1 (active,
not a superuser) holds the single OWNER grant it granted itself; user 2 is
an active superuser. -/
def wC2 : World :=
  { users := fun u =>
      if u == 2 then { is_active := true, is_superuser := true }
      else if u == 1 then { is_active := true, is_superuser := false }
      else { is_active := false, is_superuser := false }
  , groupFlags := fun _ => defaultGroupFlags
  , resFlags := fun _ => defaultResourceFlags
  , ugp := [{ user := 1, group := 5, grantor := 1, privilege := PrivilegeCodes.OWNER }]
  , urp := []
  , grp := [] }

/-- The store produced by the superuser VIEW-share of wC2: the bootstrap
OWNER grant of user 1 is gone. -/
def wC2post : World :=
  { wC2 with ugp := [{ user := 1, group := 5, grantor := 2, privilege := PrivilegeCodes.VIEW }] }

/-- Claim C2: starting from the creation bootstrap state, share, unshare and
undo-share preserve at least one OWNER-level grant per object, and an
operation that would remove or demote the sole owner raises PermissionDenied
leaving the store unchanged.  The code violates this: from the bootstrap
state of group 5 (exactly one OWNER grant, held by user 1), the active
superuser user 2 calling share_group_with_user(group 5, user 1, VIEW)
succeeds, creates a VIEW grant under grantor 2, and the owner-override
cleanup of models.py:813-821 then deletes the OWNER record of user 1
(privilege value 1 is numerically below VIEW = 3), leaving the group with
zero owners. -/
theorem c2_superuser_share_removes_sole_owner :
    get_number_of_group_owners wC2 5 = 1
  ∧ share_group_with_user wC2 2 5 1 PrivilegeCodes.VIEW = Except.ok wC2post
  ∧ get_number_of_group_owners wC2post 5 = 0 :=
  ⟨by decide, rfl, by decide⟩

/-- A store where user 1 (active) granted VIEW over group 5 to user 2
(active), and user 1 holds the OWNER grant of group 5. -/
def wC4 : World :=
  { users := fun u =>
      if u == 1 || u == 2 then { is_active := true, is_superuser := false }
      else { is_active := false, is_superuser := false }
  , groupFlags := fun _ => defaultGroupFlags
  , resFlags := fun _ => defaultResourceFlags
  , ugp := [{ user := 2, group := 5, grantor := 1, privilege := PrivilegeCodes.VIEW },
            { user := 1, group := 5, grantor := 1, privilege := PrivilegeCodes.OWNER }]
  , urp := []
  , grp := [] }

/-- Claim C4: undo-share without an explicit grantor removes exactly the
single grant whose grantor is the caller and leaves all other grants
unchanged.  The group-side code violates this: the delete at
models.py:986-988 filters on grantornew=this_grantor with this_grantor
still None, which matches no stored record, so the call reports success
while deleting nothing: the grant of user 1 to user 2 survives. -/
theorem c4_undo_share_group_default_deletes_nothing :
    undo_share_group_with_user wC4 1 5 2 Option.none = Except.ok wC4
  ∧ ({ user := 2, group := 5, grantor := 1, privilege := PrivilegeCodes.VIEW } : UGP) ∈ wC4.ugp :=
  ⟨rfl, by decide⟩

/-- A store where user 1 granted VIEW over group 6 to user 2 and holds the
OWNER grant of group 6; likewise for resource 10 on the resource axis. -/
def wC5 : World :=
  { users := fun u =>
      if u == 1 || u == 2 then { is_active := true, is_superuser := false }
      else { is_active := false, is_superuser := false }
  , groupFlags := fun _ => defaultGroupFlags
  , resFlags := fun _ => defaultResourceFlags
  , ugp := [{ user := 2, group := 6, grantor := 1, privilege := PrivilegeCodes.VIEW },
            { user := 1, group := 6, grantor := 1, privilege := PrivilegeCodes.OWNER }]
  , urp := [{ user := 2, resource := 10, grantor := 1, privilege := PrivilegeCodes.VIEW },
            { user := 1, resource := 10, grantor := 1, privilege := PrivilegeCodes.OWNER }]
  , grp := [] }

/-- The store after the resource-side undo in wC5: the grant of user 1 to
user 2 over resource 10 is gone. -/
def wC5post : World :=
  { wC5 with urp := [{ user := 1, resource := 10, grantor := 1, privilege := PrivilegeCodes.OWNER }] }

/-- Claim C5: calling undo-share twice for the same grantor, subject and
object yields success then the distinct No-share-to-undo failure, never a
silent double success.  The resource-side code conforms, but the group-side
code violates it: because the default-grantor delete matches no record
(models.py:986-988), both consecutive group-side calls succeed and the
store never changes. -/
theorem c5_undo_share_group_double_success :
    undo_share_group_with_user wC5 1 6 2 Option.none = Except.ok wC5
  ∧ (undo_share_group_with_user wC5 1 6 2 Option.none).bind
      (fun w2 => undo_share_group_with_user w2 1 6 2 Option.none) = Except.ok wC5
  ∧ undo_share_resource_with_user wC5 1 10 2 Option.none = Except.ok wC5post
  ∧ undo_share_resource_with_user wC5post 1 10 2 Option.none
      = Except.error (Err.permissionDenied ("No share to undo")) :=
  ⟨rfl, rfl, rfl, rfl⟩

/-- Claim C6: get_effective_privilege collapses to VIEW when the resource is
both immutable and public, is get_combined_privilege unmodified when
neither flag is set, and the two flag adjustments commute. -/
theorem c6_effective_privilege_flag_overrides (w : World) (r : ResId) (u : UserId) :
    ((w.resFlags r).immutable = true → (w.resFlags r).public = true →
      get_effective_privilege w r u = PrivilegeCodes.VIEW)
  ∧ ((w.resFlags r).immutable = false → (w.resFlags r).public = false →
      get_effective_privilege w r u = get_combined_privilege w r u)
  ∧ ∀ p : Nat, immutableAdjust (publicAdjust p) = publicAdjust (immutableAdjust p) := by
  refine ⟨fun hi hp => ?_, fun hi hp => ?_, fun p => ?_⟩
  · unfold get_effective_privilege immutableAdjust publicAdjust
    simp only [hi, hp, if_true]
    omega
  · unfold get_effective_privilege
    simp [hi, hp]
  · unfold immutableAdjust publicAdjust
    omega

/-- A store whose resource 10 is both immutable and public, with user 1 an
active owner of resource 10. -/
def wC6 : World :=
  { users := fun u =>
      if u == 1 then { is_active := true, is_superuser := false }
      else { is_active := false, is_superuser := false }
  , groupFlags := fun _ => defaultGroupFlags
  , resFlags := fun r =>
      if r == 10 then { defaultResourceFlags with immutable := true, public := true }
      else defaultResourceFlags
  , ugp := []
  , urp := [{ user := 1, resource := 10, grantor := 1, privilege := PrivilegeCodes.OWNER }]
  , grp := [] }

/-- Witness for C6 at a concrete input: resource 10 of wC6 carries both
flags, and the effective privilege of its owner collapses to VIEW. -/
theorem c6_effective_privilege_flag_overrides_witness :
    get_effective_privilege wC6 10 1 = PrivilegeCodes.VIEW :=
  (c6_effective_privilege_flag_overrides wC6 10 1).1 rfl rfl

/-- A store whose resource 10 is inactive while user 1 holds an OWNER grant
over it; group 5 is inactive while user 1 holds an OWNER grant over it. -/
def wC7 : World :=
  { users := fun u =>
      if u == 1 then { is_active := true, is_superuser := false }
      else { is_active := false, is_superuser := false }
  , groupFlags := fun g =>
      if g == 5 then { defaultGroupFlags with active := false } else defaultGroupFlags
  , resFlags := fun r =>
      if r == 10 then { defaultResourceFlags with active := false } else defaultResourceFlags
  , ugp := [{ user := 1, group := 5, grantor := 1, privilege := PrivilegeCodes.OWNER }]
  , urp := [{ user := 1, resource := 10, grantor := 1, privilege := PrivilegeCodes.OWNER }]
  , grp := [] }

/-- Counterexample to C7 as stated: resource 10 of wC7 is inactive, yet
owns_resource returns true, because models.py:1270-1290 never consults the
active flag of the resource (unlike owns_group, models.py:513-514). -/
theorem c7_counterexample :
    owns_resource wC7 1 10 = true ∧ (wC7.resFlags 10).active = false := by
  decide

/-- Claim C7 as amended: owns_group is true exactly when the group is active
and an OWNER record for the user exists, while owns_resource is true
exactly when an OWNER record exists, with no check of the active flag. -/
theorem c7_ownership_characterisation (w : World) (u : UserId) (g : GroupId) (r : ResId) :
    (owns_group w u g = true ↔
      ((w.groupFlags g).active = true ∧
        ∃ rec ∈ w.ugp, rec.group = g ∧ rec.privilege = PrivilegeCodes.OWNER ∧ rec.user = u))
  ∧ (owns_resource w u r = true ↔
      ∃ rec ∈ w.urp, rec.resource = r ∧ rec.privilege = PrivilegeCodes.OWNER ∧ rec.user = u) := by
  constructor
  · unfold owns_group
    by_cases h : (w.groupFlags g).active <;>
      simp [h, List.any_eq_true, and_assoc]
  · unfold owns_resource
    simp [List.any_eq_true, and_assoc]

/-- A store whose user 2 is inactive, with group 5 and resource 10 at
default flags. -/
def wC8 : World :=
  { users := fun u =>
      if u == 1 then { is_active := true, is_superuser := false }
      else { is_active := false, is_superuser := false }
  , groupFlags := fun _ => defaultGroupFlags
  , resFlags := fun _ => defaultResourceFlags
  , ugp := []
  , urp := []
  , grp := [] }

/-- Counterexample to C8 as stated: for the inactive requesting user 2,
can_delete_group raises PermissionDenied (models.py:684-685) instead of
returning false. -/
theorem c8_counterexample :
    can_delete_group wC8 2 5
      = Except.error (Err.permissionDenied ("Requesting user is not active")) :=
  rfl

/-- Claim C8 as amended: for an inactive requesting user, can_change_group
returns false, but can_delete_group and the enumeration helper
get_resource_unshare_users raise PermissionDenied instead. -/
theorem c8_inactive_requester_behaviour (w : World) (u : UserId) (g : GroupId) (r : ResId)
    (h : (w.users u).is_active = false) :
    can_change_group w u g = false
  ∧ can_delete_group w u g
      = Except.error (Err.permissionDenied ("Requesting user is not active"))
  ∧ get_resource_unshare_users w u r
      = Except.error (Err.permissionDenied ("Requesting user is not active")) := by
  unfold can_change_group can_delete_group get_resource_unshare_users
  simp [h]

/-- Witness for C8 as amended at the concrete inactive user 2 of wC8. -/
theorem c8_inactive_requester_behaviour_witness :
    can_change_group wC8 2 5 = false
  ∧ can_delete_group wC8 2 5
      = Except.error (Err.permissionDenied ("Requesting user is not active"))
  ∧ get_resource_unshare_users wC8 2 10
      = Except.error (Err.permissionDenied ("Requesting user is not active")) :=
  c8_inactive_requester_behaviour wC8 2 5 10 (by decide)

theorem minPrivAux_eq_none {l : List Nat} (h : minPrivAux l = none) : l = [] := by
  cases l with
  | nil => rfl
  | cons p rest =>
    exfalso
    cases hrest : minPrivAux rest <;> simp [minPrivAux, hrest] at h

theorem minPrivAux_mem {l : List Nat} {m : Nat} (h : minPrivAux l = some m) : m ∈ l := by
  induction l generalizing m with
  | nil => simp [minPrivAux] at h
  | cons p rest ih =>
    cases hrest : minPrivAux rest with
    | none =>
      simp [minPrivAux, hrest] at h
      simp [h]
    | some k =>
      simp [minPrivAux, hrest] at h
      rcases min_choice p k with hmin | hmin
      · rw [hmin] at h
        simp [h]
      · rw [hmin] at h
        exact List.mem_cons_of_mem p (h ▸ ih hrest)

theorem minPrivAux_le {l : List Nat} {m : Nat} (h : minPrivAux l = some m) :
    ∀ x ∈ l, m ≤ x := by
  induction l generalizing m with
  | nil => simp
  | cons p rest ih =>
    intro x hx
    cases hrest : minPrivAux rest with
    | none =>
      have hnil := minPrivAux_eq_none hrest
      subst hnil
      simp [minPrivAux] at h
      simp at hx
      omega
    | some k =>
      simp [minPrivAux, hrest] at h
      rcases List.mem_cons.mp hx with hx | hx
      · subst hx
        omega
      · have hk := ih hrest x hx
        omega

theorem aggregateMinPriv_le {l : List Nat} {x : Nat} (hx : x ∈ l) : aggregateMinPriv l ≤ x := by
  unfold aggregateMinPriv
  cases h : minPrivAux l with
  | none =>
    rw [minPrivAux_eq_none h] at hx
    simp at hx
  | some m => exact minPrivAux_le h x hx

theorem aggregateMinPriv_none_or_mem (l : List Nat) :
    aggregateMinPriv l = PrivilegeCodes.NONE ∨ aggregateMinPriv l ∈ l := by
  unfold aggregateMinPriv
  cases h : minPrivAux l with
  | none => exact Or.inl rfl
  | some m => exact Or.inr (minPrivAux_mem h)

/-- Membership in the direct privilege list, in record terms. -/
theorem mem_direct_resource_privileges {w : World} {res : ResId} {u : UserId} {x : Nat} :
    x ∈ direct_resource_privileges w res u ↔
      ∃ rec ∈ w.urp, rec.user = u ∧ (w.users rec.user).is_active = true
        ∧ rec.resource = res ∧ rec.privilege = x := by
  unfold direct_resource_privileges
  simp only [List.mem_map, List.mem_filter, Bool.and_eq_true, beq_iff_eq]
  aesop

/-- Membership in the group-mediated privilege list, in record terms. -/
theorem mem_group_mediated_privileges {w : World} {res : ResId} {u : UserId} {x : Nat} :
    x ∈ group_mediated_privileges w res u ↔
      ∃ rec ∈ w.grp, rec.resource = res ∧ (w.groupFlags rec.group).active = true
        ∧ (∃ m ∈ w.ugp, m.group = rec.group ∧ m.user = u ∧ (w.users m.user).is_active = true)
        ∧ rec.privilege = x := by
  unfold group_mediated_privileges
  simp only [List.mem_map, List.mem_filter, Bool.and_eq_true, beq_iff_eq, List.any_eq_true]
  aesop

/-- Claim C9: get_combined_privilege resolves to OWNER for a superuser; for
anyone else it is a lower bound of every applicable direct grant and every
applicable group-mediated grant, attains one of those privileges unless it
is NONE, and is NONE when no applicable grant exists. -/
theorem c9_combined_privilege_characterisation (w : World) (res : ResId) (u : UserId) :
    ((w.users u).is_superuser = true → get_combined_privilege w res u = PrivilegeCodes.OWNER)
  ∧ ((w.users u).is_superuser = false →
      ((∀ rec ∈ w.urp, rec.user = u → (w.users rec.user).is_active = true → rec.resource = res →
          get_combined_privilege w res u ≤ rec.privilege)
      ∧ (∀ rec ∈ w.grp, rec.resource = res → (w.groupFlags rec.group).active = true →
          (∃ m ∈ w.ugp, m.group = rec.group ∧ m.user = u ∧ (w.users m.user).is_active = true) →
          get_combined_privilege w res u ≤ rec.privilege)
      ∧ ((¬ ∃ rec ∈ w.urp, rec.user = u ∧ (w.users rec.user).is_active = true ∧ rec.resource = res) →
         (¬ ∃ rec ∈ w.grp, rec.resource = res ∧ (w.groupFlags rec.group).active = true
             ∧ ∃ m ∈ w.ugp, m.group = rec.group ∧ m.user = u ∧ (w.users m.user).is_active = true) →
         get_combined_privilege w res u = PrivilegeCodes.NONE)
      ∧ (get_combined_privilege w res u = PrivilegeCodes.NONE
        ∨ (∃ rec ∈ w.urp, rec.user = u ∧ (w.users rec.user).is_active = true ∧ rec.resource = res
            ∧ rec.privilege = get_combined_privilege w res u)
        ∨ (∃ rec ∈ w.grp, rec.resource = res ∧ (w.groupFlags rec.group).active = true
            ∧ (∃ m ∈ w.ugp, m.group = rec.group ∧ m.user = u ∧ (w.users m.user).is_active = true)
            ∧ rec.privilege = get_combined_privilege w res u)))) := by
  constructor
  · intro hsu
    unfold get_combined_privilege
    simp [hsu]
  · intro hsu
    have hc : get_combined_privilege w res u
        = min (aggregateMinPriv (direct_resource_privileges w res u))
              (aggregateMinPriv (group_mediated_privileges w res u)) := by
      unfold get_combined_privilege
      simp only [hsu, Bool.false_eq_true, if_false]
    refine ⟨?_, ?_, ?_, ?_⟩
    · intro rec hmem h1 h2 h3
      have hx : rec.privilege ∈ direct_resource_privileges w res u :=
        mem_direct_resource_privileges.mpr ⟨rec, hmem, h1, h2, h3, rfl⟩
      rw [hc]
      exact le_trans (min_le_left _ _) (aggregateMinPriv_le hx)
    · intro rec hmem h1 h2 h3
      have hx : rec.privilege ∈ group_mediated_privileges w res u :=
        mem_group_mediated_privileges.mpr ⟨rec, hmem, h1, h2, h3, rfl⟩
      rw [hc]
      exact le_trans (min_le_right _ _) (aggregateMinPriv_le hx)
    · intro hd hg
      have hde : direct_resource_privileges w res u = [] := by
        cases hl : direct_resource_privileges w res u with
        | nil => rfl
        | cons a t =>
          exfalso
          have : a ∈ direct_resource_privileges w res u := by
            rw [hl]; exact List.mem_cons_self a t
          rcases mem_direct_resource_privileges.mp this with ⟨rec, hmem, h1, h2, h3, _⟩
          exact hd ⟨rec, hmem, h1, h2, h3⟩
      have hge : group_mediated_privileges w res u = [] := by
        cases hl : group_mediated_privileges w res u with
        | nil => rfl
        | cons a t =>
          exfalso
          have : a ∈ group_mediated_privileges w res u := by
            rw [hl]; exact List.mem_cons_self a t
          rcases mem_group_mediated_privileges.mp this with ⟨rec, hmem, h1, h2, h3, _⟩
          exact hg ⟨rec, hmem, h1, h2, h3⟩
      rw [hc, hde, hge]
      rfl
    · rcases aggregateMinPriv_none_or_mem (direct_resource_privileges w res u) with h1 | h1 <;>
        rcases aggregateMinPriv_none_or_mem (group_mediated_privileges w res u) with h2 | h2
      · left
        rw [hc, h1, h2]
        rfl
      · rcases Nat.le_total (aggregateMinPriv (direct_resource_privileges w res u))
            (aggregateMinPriv (group_mediated_privileges w res u)) with hle | hle
        · left
          rw [hc, min_eq_left hle, h1]
        · right; right
          rcases mem_group_mediated_privileges.mp h2 with ⟨rec, hmem, ha, hb, hcm, hd⟩
          exact ⟨rec, hmem, ha, hb, hcm, by rw [hc, min_eq_right hle]; exact hd⟩
      · rcases Nat.le_total (aggregateMinPriv (direct_resource_privileges w res u))
            (aggregateMinPriv (group_mediated_privileges w res u)) with hle | hle
        · right; left
          rcases mem_direct_resource_privileges.mp h1 with ⟨rec, hmem, ha, hb, hcm, hd⟩
          exact ⟨rec, hmem, ha, hb, hcm, by rw [hc, min_eq_left hle]; exact hd⟩
        · left
          rw [hc, min_eq_right hle, h2]
      · rcases Nat.le_total (aggregateMinPriv (direct_resource_privileges w res u))
            (aggregateMinPriv (group_mediated_privileges w res u)) with hle | hle
        · right; left
          rcases mem_direct_resource_privileges.mp h1 with ⟨rec, hmem, ha, hb, hcm, hd⟩
          exact ⟨rec, hmem, ha, hb, hcm, by rw [hc, min_eq_left hle]; exact hd⟩
        · right; right
          rcases mem_group_mediated_privileges.mp h2 with ⟨rec, hmem, ha, hb, hcm, hd⟩
          exact ⟨rec, hmem, ha, hb, hcm, by rw [hc, min_eq_right hle]; exact hd⟩

/-- A store where the active non-superuser user 1 holds a VIEW grant over
resource 10 granted by user 2. -/
def wC9 : World :=
  { users := fun u =>
      if u == 1 || u == 2 then { is_active := true, is_superuser := false }
      else { is_active := false, is_superuser := false }
  , groupFlags := fun _ => defaultGroupFlags
  , resFlags := fun _ => defaultResourceFlags
  , ugp := []
  , urp := [{ user := 1, resource := 10, grantor := 2, privilege := PrivilegeCodes.VIEW }]
  , grp := [] }

/-- Witness for C9 at a concrete input: the combined privilege of user 1
over resource 10 of wC9 is bounded by its direct VIEW grant. -/
theorem c9_combined_privilege_characterisation_witness :
    get_combined_privilege wC9 10 1 ≤ PrivilegeCodes.VIEW :=
  ((c9_combined_privilege_characterisation wC9 10 1).2 rfl).1
    { user := 1, resource := 10, grantor := 2, privilege := PrivilegeCodes.VIEW }
    (by decide) rfl rfl rfl

/-- Claim C10: share_group_with_user never consults the is_active flag of
the grantee.  For every caller passing the authorization guards of
models.py:782-793 (and not tripping the sole-owner demotion guard), sharing
a group with an inactive user completes and leaves the granted record in
the store, while share_resource_with_user refuses the same inactive grantee
at models.py:1588-1589. -/
theorem c10_group_share_ignores_grantee_activity (w : World) (self : UserId) (g : GroupId)
    (tu : UserId) (priv : Nat)
    (hact : (w.users self).is_active = true)
    (hina : (w.users tu).is_active = false)
    (hauth1 : (owns_group w self g || (w.groupFlags g).shareable
        || (w.users self).is_superuser) = true)
    (hauth2 : ((w.users self).is_superuser
        || w.ugp.any (fun r => r.group == g && r.user == self && decide (r.privilege ≤ priv))) = true)
    (hdem : (match w.ugp.find? (fun r => r.group == g && r.user == tu && r.grantor == self) with
      | some rec => rec.privilege == PrivilegeCodes.OWNER && priv != PrivilegeCodes.OWNER
          && get_number_of_group_owners w g == 1
      | none => false) = false) :
    (∃ w2, share_group_with_user w self g tu priv = Except.ok w2
        ∧ ({ user := tu, group := g, grantor := self, privilege := priv } : UGP) ∈ w2.ugp)
  ∧ ∀ res, share_resource_with_user w self res tu priv
      = Except.error (Err.permissionDenied ("Grantee is not an active user")) := by
  constructor
  · have hcond1 : (!(owns_group w self g) && !(w.groupFlags g).shareable
        && !(w.users self).is_superuser) = false := by
      cases h1 : owns_group w self g <;>
        cases h2 : (w.groupFlags g).shareable <;>
        cases h3 : (w.users self).is_superuser <;>
        simp_all
    have hcond2 : (!(w.users self).is_superuser
        && !(w.ugp.any (fun r => r.group == g && r.user == self && decide (r.privilege ≤ priv)))) = false := by
      cases h1 : (w.users self).is_superuser <;>
        cases h2 : w.ugp.any (fun r => r.group == g && r.user == self && decide (r.privilege ≤ priv)) <;>
        simp_all
    unfold share_group_with_user
    simp only [hact, Bool.not_true, Bool.false_eq_true, if_false, hcond1, hcond2]
    cases hf : w.ugp.find? (fun r => r.group == g && r.user == tu && r.grantor == self) with
    | none =>
      refine ⟨_, rfl, ?_⟩
      unfold group_owner_override
      split
      · refine List.mem_filter.mpr ⟨List.mem_cons_self _ _, ?_⟩
        simp
      · exact List.mem_cons_self _ _
    | some rec =>
      simp only [hf] at hdem
      have hp := List.find?_some hf
      have hmem := List.mem_of_find?_eq_some hf
      simp only [Bool.and_eq_true, beq_iff_eq] at hp
      obtain ⟨⟨hpg, hpu⟩, hpr⟩ := hp
      simp only [hdem, Bool.false_eq_true, if_false]
      refine ⟨_, rfl, ?_⟩
      have hrec : ({ user := tu, group := g, grantor := self, privilege := priv } : UGP)
          = { rec with privilege := priv } := by
        cases rec
        simp only at hpg hpu hpr
        simp [hpg, hpu, hpr]
      unfold group_owner_override
      have hmemmap : ({ rec with privilege := priv } : UGP) ∈ w.ugp.map (fun r =>
          if r.group == g && r.user == tu && r.grantor == self then
            { r with privilege := priv } else r) := by
        have := List.mem_map_of_mem (fun r : UGP =>
          if r.group == g && r.user == tu && r.grantor == self then
            { r with privilege := priv } else r) hmem
        simpa [hpg, hpu, hpr] using this
      split
      · refine List.mem_filter.mpr ⟨by rw [hrec]; exact hmemmap, ?_⟩
        simp
      · rw [hrec]; exact hmemmap
  · intro res
    unfold share_resource_with_user
    simp [hact, hina]

/-- A store with an active superuser user 1 and an inactive user 2, with
group 5 in existence and no grants yet. -/
def wC10 : World :=
  { users := fun u =>
      if u == 1 then { is_active := true, is_superuser := true }
      else { is_active := false, is_superuser := false }
  , groupFlags := fun _ => defaultGroupFlags
  , resFlags := fun _ => defaultResourceFlags
  , ugp := []
  , urp := []
  , grp := [] }

/-- Witness for C10 at a concrete input: superuser 1 shares group 5 with
the inactive user 2 at VIEW and the grant lands in the store, while the
resource-side share of resource 10 refuses the same grantee. -/
theorem c10_group_share_ignores_grantee_activity_witness :
    (∃ w2, share_group_with_user wC10 1 5 2 PrivilegeCodes.VIEW = Except.ok w2
        ∧ ({ user := 2, group := 5, grantor := 1, privilege := PrivilegeCodes.VIEW } : UGP) ∈ w2.ugp)
  ∧ ∀ res, share_resource_with_user wC10 1 res 2 PrivilegeCodes.VIEW
      = Except.error (Err.permissionDenied ("Grantee is not an active user")) :=
  c10_group_share_ignores_grantee_activity wC10 1 5 2 PrivilegeCodes.VIEW
    rfl rfl (by decide) (by decide) (by decide)

/-- A store where the active non-superuser user 1 is the sole owner of
resource 10 (its creation bootstrap grant); every other user is inactive. -/
def wC1 : World :=
  { users := fun u =>
      if u == 1 then { is_active := true, is_superuser := false }
      else { is_active := false, is_superuser := false }
  , groupFlags := fun _ => defaultGroupFlags
  , resFlags := fun _ => defaultResourceFlags
  , ugp := []
  , urp := [{ user := 1, resource := 10, grantor := 1, privilege := PrivilegeCodes.OWNER }]
  , grp := [] }

/-- Counterexample to C1 as stated: user 1 (an active grantee) is the sole
owner of resource 10, can_share_resource at VIEW answers true, yet the
paired action share_resource_with_user(resource 10, user 1, VIEW) raises
PermissionDenied, because the demotion of the sole owner is rejected only
inside the action (models.py:1639-1642) and not in the predicate. -/
theorem c1_counterexample :
    can_share_resource wC1 1 10 PrivilegeCodes.VIEW = true
  ∧ share_resource_with_user wC1 1 10 1 PrivilegeCodes.VIEW
      = Except.error (Err.permissionDenied ("Cannot remove last owner of resource")) :=
  ⟨by decide, rfl⟩

/-- Claim C1 as amended: the equivalence holds in one direction only.
Whenever can_share_resource answers false, the paired
share_resource_with_user raises PermissionDenied for every grantee; the
converse fails (see the counterexample: the action can additionally refuse
a sole-owner demotion, a non-owner downgrade of a grant made by a
different grantor, or an inactive grantee). -/
theorem c1_can_share_false_implies_action_denied (w : World) (self : UserId) (res : ResId)
    (tu : UserId) (priv : Nat)
    (h : can_share_resource w self res priv = false) :
    ∃ m, share_resource_with_user w self res tu priv = Except.error (Err.permissionDenied m) := by
  unfold can_share_resource at h
  unfold share_resource_with_user
  cases ha : (w.users self).is_active with
  | false => exact ⟨"Requester is not an active user", by simp [ha]⟩
  | true =>
    rw [ha] at h
    cases hg : (w.users tu).is_active with
    | false => exact ⟨"Grantee is not an active user", by simp [ha, hg]⟩
    | true =>
      simp only [ha, hg, Bool.not_true, Bool.false_eq_true, if_false] at h ⊢
      cases hA : ((w.users self).is_superuser
          || get_combined_privilege w res self == PrivilegeCodes.OWNER
          || (w.resFlags res).shareable) with
      | false => exact ⟨"User must own resource or have sharing privilege", by simp [hA]⟩
      | true =>
        simp only [hA, Bool.not_true, Bool.false_eq_true, if_false] at h ⊢
        by_cases hB : get_combined_privilege w res self > PrivilegeCodes.VIEW
        · exact ⟨"User has no privilege over resource", by simp [hB]⟩
        · simp only [hB, decide_False, Bool.false_eq_true, if_false] at h ⊢
          by_cases hC : get_combined_privilege w res self > priv
          · exact ⟨"User has insufficient privilege over resource", by simp [hC]⟩
          · simp [hB, hC] at h

/-- Witness for C1 as amended at a concrete input: user 2 of wC1 is
inactive, so the predicate answers false and the action raises. -/
theorem c1_can_share_false_implies_action_denied_witness :
    can_share_resource wC1 2 10 PrivilegeCodes.VIEW = false
  ∧ ∃ m, share_resource_with_user wC1 2 10 2 PrivilegeCodes.VIEW
      = Except.error (Err.permissionDenied m) :=
  ⟨by decide, c1_can_share_false_implies_action_denied wC1 2 10 2 PrivilegeCodes.VIEW (by decide)⟩

/-- A store where the active non-superuser user 1 owns resource 10 and the
active user 2 holds a VIEW grant over resource 10 from grantor 3. -/
def wC3 : World :=
  { users := fun u =>
      if u == 1 || u == 2 || u == 3 then { is_active := true, is_superuser := false }
      else { is_active := false, is_superuser := false }
  , groupFlags := fun _ => defaultGroupFlags
  , resFlags := fun _ => defaultResourceFlags
  , ugp := []
  , urp := [{ user := 1, resource := 10, grantor := 1, privilege := PrivilegeCodes.OWNER },
            { user := 2, resource := 10, grantor := 3, privilege := PrivilegeCodes.VIEW }]
  , grp := [] }

/-- The store produced by the owner CHANGE-share of wC3. -/
def wC3post : World :=
  { wC3 with urp := [{ user := 2, resource := 10, grantor := 1, privilege := PrivilegeCodes.CHANGE },
                     { user := 1, resource := 10, grantor := 1, privilege := PrivilegeCodes.OWNER },
                     { user := 2, resource := 10, grantor := 3, privilege := PrivilegeCodes.VIEW }] }

/-- Counterexample to C3 as stated: owner user 1 shares resource 10 with
user 2 at CHANGE and the share succeeds, yet the VIEW record of user 2 from
grantor 3 - strictly weaker than CHANGE - survives, because the cleanup at
models.py:1651-1655 deletes records whose privilege value is numerically
below the granted level, which are the strictly stronger grants. -/
theorem c3_counterexample :
    share_resource_with_user wC3 1 10 2 PrivilegeCodes.CHANGE = Except.ok wC3post
  ∧ ({ user := 2, resource := 10, grantor := 3, privilege := PrivilegeCodes.VIEW } : URP)
      ∈ wC3post.urp
  ∧ PrivilegeCodes.CHANGE < PrivilegeCodes.VIEW :=
  ⟨rfl, by decide, by decide⟩

/-- The upsert of share_resource_with_user rewrites only records of the
grantee, so for a grantee distinct from the sharer it cannot change whether
the sharer owns the resource. -/
theorem owns_resource_after_upsert_map (w : World) (self tu : UserId) (res : ResId) (priv : Nat)
    (hne : tu ≠ self) :
    owns_resource { w with urp := w.urp.map (fun p =>
      if p.resource == res && p.user == tu && p.grantor == self then
        { p with privilege := priv } else p) } self res = owns_resource w self res := by
  unfold owns_resource
  rw [List.any_map]
  congr 1
  funext p
  simp only [Function.comp_apply]
  cases hcond : (p.resource == res && p.user == tu && p.grantor == self) with
  | false => simp
  | true =>
    have hu : p.user = tu := by
      have h2 := hcond
      simp only [Bool.and_eq_true, beq_iff_eq] at h2
      exact h2.1.2
    have hfalse : (p.user == self) = false := by
      rw [hu]
      exact beq_eq_false_iff_ne.mpr hne
    simp [hfalse]

/-- Claim C3 as amended: after a share by an owner or superuser granting
level priv to a grantee distinct from the sharer succeeds, every surviving
record of that grantee over that resource has privilege value at least
priv - the cleanup deletes the strictly stronger grants (numerically lower
values), while strictly weaker grants survive (see the counterexample). -/
theorem c3_owner_share_removes_stronger_grants (w : World) (self : UserId) (res : ResId)
    (tu : UserId) (priv : Nat) (w2 : World)
    (hne : tu ≠ self)
    (hown : (w.users self).is_superuser = true ∨ owns_resource w self res = true)
    (hok : share_resource_with_user w self res tu priv = Except.ok w2) :
    ∀ rec ∈ w2.urp, rec.user = tu → rec.resource = res → priv ≤ rec.privilege := by
  unfold share_resource_with_user at hok
  cases ha : (w.users self).is_active with
  | false => rw [ha] at hok; simp at hok
  | true =>
    rw [ha] at hok
    cases hg : (w.users tu).is_active with
    | false => rw [hg] at hok; simp at hok
    | true =>
      rw [hg] at hok
      simp only [Bool.not_true, Bool.false_eq_true, if_false] at hok
      cases hA : ((w.users self).is_superuser
          || get_combined_privilege w res self == PrivilegeCodes.OWNER
          || (w.resFlags res).shareable) with
      | false => rw [hA] at hok; simp at hok
      | true =>
        rw [hA] at hok
        simp only [Bool.not_true, Bool.false_eq_true, if_false] at hok
        by_cases hB : get_combined_privilege w res self > PrivilegeCodes.VIEW
        · simp [hB] at hok
        · simp only [hB, decide_False, Bool.false_eq_true, if_false] at hok
          by_cases hC : get_combined_privilege w res self > priv
          · simp [hC] at hok
          · simp only [hC, decide_False, Bool.false_eq_true, if_false] at hok
            cases hdg : downgrade_guard w self res tu priv (get_combined_privilege w res tu)
                (get_combined_privilege w res self) with
            | error e => rw [hdg] at hok; simp at hok
            | ok unitv =>
              rw [hdg] at hok
              unfold share_resource_apply at hok
              cases hf : w.urp.find? (fun p => p.resource == res && p.user == tu && p.grantor == self) with
              | some rec0 =>
                simp only [hf] at hok
                by_cases hdem : (rec0.privilege == PrivilegeCodes.OWNER
                    && priv != PrivilegeCodes.OWNER
                    && get_number_of_resource_owners w res == 1) = true
                · rw [if_pos hdem] at hok; simp at hok
                · rw [if_neg hdem] at hok
                  have hw2 := Except.ok.inj hok
                  subst hw2
                  unfold resource_owner_override
                  have hob := owns_resource_after_upsert_map w self tu res priv hne
                  have hcond : ((w.users self).is_active && ((w.users self).is_superuser
                      || owns_resource { w with urp := w.urp.map (fun p =>
                          if p.resource == res && p.user == tu && p.grantor == self then
                            { p with privilege := priv } else p) } self res)) = true := by
                    rw [hob]
                    rcases hown with h | h <;> simp [ha, h]
                  rw [if_pos hcond]
                  intro rec hrec h1 h2
                  have hkeep := (List.mem_filter.mp hrec).2
                  simp [h1, h2] at hkeep
                  omega
              | none =>
                simp only [hf] at hok
                by_cases hdem : (priv == PrivilegeCodes.OWNER
                    && priv != PrivilegeCodes.OWNER
                    && get_number_of_resource_owners w res == 1) = true
                · rw [if_pos hdem] at hok; simp at hok
                · rw [if_neg hdem] at hok
                  have hw2 := Except.ok.inj hok
                  subst hw2
                  unfold resource_owner_override
                  have hts : (tu == self) = false := beq_eq_false_iff_ne.mpr hne
                  have hob : owns_resource { w with
                      urp := { user := tu, resource := res, grantor := self, privilege := priv } :: w.urp }
                        self res = owns_resource w self res := by
                    unfold owns_resource
                    simp [List.any_cons, hts]
                  have hcond : ((w.users self).is_active && ((w.users self).is_superuser
                      || owns_resource { w with
                          urp := { user := tu, resource := res, grantor := self, privilege := priv } :: w.urp }
                            self res)) = true := by
                    rw [hob]
                    rcases hown with h | h <;> simp [ha, h]
                  rw [if_pos hcond]
                  intro rec hrec h1 h2
                  have hkeep := (List.mem_filter.mp hrec).2
                  simp [h1, h2] at hkeep
                  omega

/-- Witness for C3 as amended at the concrete input of the counterexample:
after the CHANGE-share, every surviving record of user 2 over resource 10
sits at CHANGE or numerically above it. -/
theorem c3_owner_share_removes_stronger_grants_witness :
    owns_resource wC3 1 10 = true
  ∧ ∀ rec ∈ wC3post.urp, rec.user = 2 → rec.resource = 10 →
      PrivilegeCodes.CHANGE ≤ rec.privilege :=
  ⟨by decide,
   c3_owner_share_removes_stronger_grants wC3 1 10 2 PrivilegeCodes.CHANGE wC3post
     (by decide) (Or.inr (by decide)) rfl⟩

end HSAccess
